import Mathlib

/-!
# IRIS gateway of go-midtrans (`iris.go`)

A shallow embedding of `IrisGateway` and its six operations, followed by the
properties of the specification that were checked against it.

Conventions of the embedding.

* Go strings are Lean `String`s (the valid UTF-8 ones); on those, the byte level
  prefix test and join of the Go library agree with the character level ones.
* A Go `error` is an `Option GoError`: `none` is `nil`, `some e` carries the
  message returned by `e.Error()`.
* A Go slice is a `List`; the nil slice and the empty slice are both `[]`.
* Effects are explicit: every operation maps a `World` to its result and the
  next `World`.  The world records the requests handed to the transport and the
  lines this file asks the logger to print.
* The destination `v interface{}` of `Call` is a pair of a dynamic type tag
  (`DestKind`) and a value of that type; the callee gives back the value it left
  in the destination.
-/

namespace Midtrans

/-! ## Go library functions used by `iris.go` -/

/-- Go `error` value that is not nil; `msg` is what `Error()` returns. -/
structure GoError where
  msg : String
  deriving DecidableEq, Repr

/-- `errors.New(text)`. -/
def errors.New (text : String) : GoError := ⟨text⟩

/-- `strings.HasPrefix(s, prefix)`:
`len(s) >= len(prefix) && s[:len(prefix)] == prefix`. -/
def strings.HasPrefix (s pre : String) : Bool :=
  decide (s.length ≥ pre.length) && (s.data.take pre.length == pre.data)

/-- `strings.Join(elems, sep)`: empty for no element, the element itself for
one, otherwise the first element followed by `sep` and the next element for each
of the remaining ones. -/
def strings.Join (elems : List String) (sep : String) : String :=
  match elems with
  | [] => ""
  | [e] => e
  | e :: rest => rest.foldl (fun b s => b ++ sep ++ s) e

/-- `fmt.Sprintf("api/v1/beneficiaries/%s", a)`: the verb `%s` writes the string
operand as it is. -/
def fmt.Sprintf_beneficiaries (a : String) : String :=
  "api/v1/beneficiaries/" ++ a

/-! ## Data model -/

/-- Modelled from the spec: `IrisBeneficiaryBankResponse`, declared outside
`iris.go`; a bank of the reference data (code, name). -/
structure IrisBeneficiaryBankResponse where
  Code : String := ""
  Name : String := ""
  deriving DecidableEq, Repr

/-- Modelled from the spec: `IrisBeneficiaryBanksResponse`, declared outside
`iris.go`; the decoded list of banks. -/
structure IrisBeneficiaryBanksResponse where
  BeneficiaryBanks : List IrisBeneficiaryBankResponse := []
  deriving DecidableEq, Repr

/-- Modelled from the spec: `IrisBeneficiaries`, declared outside `iris.go`; an
alias identifying a payout recipient (alias name, bank, account, account holder
name, email). -/
structure IrisBeneficiaries where
  Name : String := ""
  Account : String := ""
  Bank : String := ""
  AliasName : String := ""
  Email : String := ""
  deriving DecidableEq, Repr

/-- Modelled from the spec: `IrisBeneficiariesResponse`, declared outside
`iris.go`; `iris.go` reads its fields `Status` and `Errors`. -/
structure IrisBeneficiariesResponse where
  Status : String := ""
  Errors : List String := []
  deriving DecidableEq, Repr

/-- Modelled from the spec: one disbursement instruction of a payout request
(beneficiary alias, amount, notes). -/
structure IrisCreatePayoutDetailReq where
  BeneficiaryAlias : String := ""
  Amount : String := ""
  Notes : String := ""
  deriving DecidableEq, Repr

/-- Modelled from the spec: `IrisCreatePayoutReq`, declared outside `iris.go`;
one or more disbursement instructions submitted together. -/
structure IrisCreatePayoutReq where
  Payouts : List IrisCreatePayoutDetailReq := []
  deriving DecidableEq, Repr

/-- Modelled from the spec: the per-item detail of a payout creation response. -/
structure IrisCreatePayoutDetailResponse where
  Status : String := ""
  ReferenceNo : String := ""
  deriving DecidableEq, Repr

/-- Modelled from the spec: `IrisCreatePayoutResponse`, declared outside
`iris.go`; `iris.go` reads its field `ErrorMessage`, the per-item details are
the caller's concern. -/
structure IrisCreatePayoutResponse where
  Payouts : List IrisCreatePayoutDetailResponse := []
  ErrorMessage : String := ""
  deriving DecidableEq, Repr

/-- Modelled from the spec: `IrisApprovePayoutReq`, declared outside `iris.go`;
a batch of payout reference identifiers submitted together for approval. -/
structure IrisApprovePayoutReq where
  ReferenceNo : List String := []
  OTP : String := ""
  deriving DecidableEq, Repr

/-- Modelled from the spec: `IrisApprovePayoutResponse`, declared outside
`iris.go`; `iris.go` reads its fields `Status` and `Errors`. -/
structure IrisApprovePayoutResponse where
  Status : String := ""
  Errors : List String := []
  deriving DecidableEq, Repr

/-! ## The collaborators: transport, JSON encoder, logger -/

/-- Dynamic type of the destination `v interface{}` handed to `Call`: the five
types `iris.go` passes a pointer to. -/
inductive DestKind where
  | banks
  | beneficiariesResp
  | beneficiaryList
  | createPayout
  | approvePayout
  deriving DecidableEq, Repr

/-- Type of the value a destination of the given kind points to. -/
@[reducible] def DestKind.type : DestKind → Type
  | .banks => IrisBeneficiaryBanksResponse
  | .beneficiariesResp => IrisBeneficiariesResponse
  | .beneficiaryList => List IrisBeneficiaries
  | .createPayout => IrisCreatePayoutResponse
  | .approvePayout => IrisApprovePayoutResponse

/-- One invocation of the transport: method, full URL and body (`none` is the
nil reader, `some b` is `bytes.NewBuffer(b)`). -/
structure Request where
  method : String
  url : String
  body : Option String
  deriving DecidableEq, Repr

/-- Operand of a `Logger.Println` call of `iris.go`. -/
inductive LogArg where
  | str (s : String)
  | err (e : GoError)
  | strs (l : List String)
  deriving DecidableEq, Repr

/-- The observable effects: the requests handed to the transport and the lines
`iris.go` asked the logger to print, both oldest first. -/
structure World where
  sent : List Request := []
  log : List (List LogArg) := []
  deriving DecidableEq, Repr

/-- Modelled from the spec: `Client`, declared outside `iris.go`.  `IrisURL` is
the value of `APIEnvType.IrisURL()`.  `transport` is the round trip of the
generic call primitive: from the requests made so far, the request and the
destination, it gives the value left in the destination and the error. -/
structure Client where
  IrisURL : String
  transport : List Request → Request → (k : DestKind) → k.type → k.type × Option GoError

/-- Modelled from the spec: `Client.Call`, declared outside `iris.go`; it hands
the request to the transport once, which is recorded in the world. -/
def Client.Call (c : Client) (method path : String) (body : Option String)
    (k : DestKind) (v : k.type) (w : World) : (k.type × Option GoError) × World :=
  let rq : Request := ⟨method, path, body⟩
  (c.transport w.sent rq k v, { w with sent := w.sent ++ [rq] })

/-- Modelled from the spec: `Client.Logger.Println`, declared outside `iris.go`;
the operands of the call are appended to the log. -/
def Logger.Println (args : List LogArg) (w : World) : World :=
  { w with log := w.log ++ [args] }

/-- The three uses of `json.Marshal` in `iris.go`, one for each request type;
the encoder is a parameter of the model.  `CreateBeneficiaries` and
`UpdateBeneficiaries` receive a pointer, `none` is the nil pointer. -/
structure Marshal where
  beneficiaries : Option IrisBeneficiaries → String
  createPayout : IrisCreatePayoutReq → String
  approvePayout : IrisApprovePayoutReq → String

/-! ## `iris.go` -/

/-- `IrisGateway` struct. -/
structure IrisGateway where
  Client : Client

/-- `Call`: base method to call the IRIS API. -/
def IrisGateway.Call (gateway : IrisGateway) (method path : String) (body : Option String)
    (k : DestKind) (v : k.type) (w : World) : (k.type × Option GoError) × World :=
  let path := if !strings.HasPrefix path "/" then "/" ++ path else path
  let path := gateway.Client.IrisURL ++ path
  gateway.Client.Call method path body k v w

/-- `GetListBeneficiaryBank`. -/
def IrisGateway.GetListBeneficiaryBank (gateway : IrisGateway) (w : World) :
    (IrisBeneficiaryBanksResponse × Option GoError) × World :=
  let resp : IrisBeneficiaryBanksResponse := {}
  let ((resp, err), w) := gateway.Call "GET" "api/v1/beneficiary_banks" none .banks resp w
  match err with
  | some e =>
    let w := Logger.Println [.str "Error getting beneficiary banks: ", .err e] w
    ((resp, err), w)
  | none => ((resp, none), w)

/-- `CreateBeneficiaries`. -/
def IrisGateway.CreateBeneficiaries (gateway : IrisGateway) (json : Marshal)
    (req : Option IrisBeneficiaries) (w : World) : (Bool × Option GoError) × World :=
  let resp : IrisBeneficiariesResponse := {}
  let jsonReq := json.beneficiaries req
  let ((resp, err), w) :=
    gateway.Call "POST" "api/v1/beneficiaries" (some jsonReq) .beneficiariesResp resp w
  match err with
  | some e =>
    let w := Logger.Println [.str "Error creating beneficiaries: ", .err e] w
    ((false, err), w)
  | none =>
    if resp.Status ≠ "created" then
      let w := Logger.Println [.str "Error creating beneficiaries: ", .strs resp.Errors] w
      ((false, some (errors.New (strings.Join resp.Errors ","))), w)
    else
      ((true, none), w)

/-- `UpdateBeneficiaries`. -/
def IrisGateway.UpdateBeneficiaries (gateway : IrisGateway) (json : Marshal)
    (aliasName : String) (req : Option IrisBeneficiaries) (w : World) :
    (Bool × Option GoError) × World :=
  let resp : IrisBeneficiariesResponse := {}
  let jsonReq := json.beneficiaries req
  let ((resp, err), w) :=
    gateway.Call "PATCH" (fmt.Sprintf_beneficiaries aliasName) (some jsonReq)
      .beneficiariesResp resp w
  match err with
  | some e =>
    let w := Logger.Println [.str "Error updating beneficiaries: ", .err e] w
    ((false, err), w)
  | none =>
    if resp.Status ≠ "updated" then
      let w := Logger.Println [.str "Error updating beneficiaries: ", .strs resp.Errors] w
      ((false, some (errors.New (strings.Join resp.Errors ","))), w)
    else
      ((true, none), w)

/-- `GetListBeneficiaries`. -/
def IrisGateway.GetListBeneficiaries (gateway : IrisGateway) (w : World) :
    (List IrisBeneficiaries × Option GoError) × World :=
  let resp : List IrisBeneficiaries := []
  let ((resp, err), w) := gateway.Call "GET" "api/v1/beneficiaries" none .beneficiaryList resp w
  match err with
  | some e =>
    let w := Logger.Println [.str "Error get list beneficiaries: ", .err e] w
    ((resp, err), w)
  | none => ((resp, none), w)

/-- `CreatePayouts`. -/
def IrisGateway.CreatePayouts (gateway : IrisGateway) (json : Marshal)
    (req : IrisCreatePayoutReq) (w : World) :
    (IrisCreatePayoutResponse × Option GoError) × World :=
  let resp : IrisCreatePayoutResponse := {}
  let jsonReq := json.createPayout req
  let ((resp, err), w) :=
    gateway.Call "POST" "api/v1/payouts" (some jsonReq) .createPayout resp w
  match err with
  | some e =>
    let w := Logger.Println [.str "Error creating payouts: ", .err e] w
    ((resp, err), w)
  | none =>
    if resp.ErrorMessage ≠ "" then
      ((resp, some (errors.New resp.ErrorMessage)), w)
    else
      ((resp, none), w)

/-- `ApprovePayouts`. -/
def IrisGateway.ApprovePayouts (gateway : IrisGateway) (json : Marshal)
    (req : IrisApprovePayoutReq) (w : World) :
    (IrisApprovePayoutResponse × Option GoError) × World :=
  let resp : IrisApprovePayoutResponse := {}
  let jsonReq := json.approvePayout req
  let ((resp, err), w) :=
    gateway.Call "POST" "api/v1/payouts/approve" (some jsonReq) .approvePayout resp w
  match err with
  | some e =>
    let w := Logger.Println [.str "Error approving payouts: ", .err e] w
    ((resp, err), w)
  | none =>
    if resp.Errors.length > 0 then
      ((resp, some (errors.New (strings.Join resp.Errors ", "))), w)
    else if resp.Status ≠ "ok" then
      ((resp, some (errors.New "Error approving payouts, status from API not OK")), w)
    else
      ((resp, none), w)

/-! ## Concrete collaborators used to evaluate the model -/

/-- An encoder that ignores the request and yields a fixed JSON text. -/
def sampleMarshal : Marshal :=
  ⟨fun _ => "{}", fun _ => "{}", fun _ => "{}"⟩

/-- Base URL of the sample gateways. -/
def sampleBase : String := "https://iris.example"

/-- A canned round trip: the value the transport leaves in a destination of each
kind, and the error it returns. -/
structure Canned where
  banks : IrisBeneficiaryBanksResponse := {}
  beneficiariesResp : IrisBeneficiariesResponse := {}
  beneficiaryList : List IrisBeneficiaries := []
  createPayout : IrisCreatePayoutResponse := {}
  approvePayout : IrisApprovePayoutResponse := {}
  err : Option GoError := none

/-- The transport that answers every request with the canned round trip. -/
def Canned.transport (c : Canned) :
    List Request → Request → (k : DestKind) → k.type → k.type × Option GoError :=
  fun _ _ k _ =>
    match k with
    | .banks => (c.banks, c.err)
    | .beneficiariesResp => (c.beneficiariesResp, c.err)
    | .beneficiaryList => (c.beneficiaryList, c.err)
    | .createPayout => (c.createPayout, c.err)
    | .approvePayout => (c.approvePayout, c.err)

/-- The gateway over the canned transport. -/
def sampleGateway (c : Canned) : IrisGateway :=
  ⟨⟨sampleBase, c.transport⟩⟩

/-! ## Lemmas on the library functions -/

theorem hasPrefix_slash_iff (s : String) :
    strings.HasPrefix s "/" = true ↔ s.data.head? = some '/' := by
  obtain ⟨l⟩ := s
  cases l with
  | nil => simp [strings.HasPrefix, String.length]
  | cons c t =>
    cases t <;> simp [strings.HasPrefix, String.length]

theorem hasPrefix_slash_append (p : String) : strings.HasPrefix ("/" ++ p) "/" = true := by
  rw [hasPrefix_slash_iff]
  simp

theorem string_append_cancel_left (a b c : String) (h : a ++ b = a ++ c) : b = c := by
  have h1 := congrArg String.data h
  simp only [String.data_append] at h1
  exact String.ext (List.append_cancel_left h1)

theorem foldl_join_data (sep : String) (rest : List String) :
    ∀ acc : String,
      acc.data <+: (rest.foldl (fun b s => b ++ sep ++ s) acc).data ∧
      ∀ s ∈ rest, s.data <:+: (rest.foldl (fun b s => b ++ sep ++ s) acc).data := by
  induction rest with
  | nil => intro acc; simp
  | cons x xs ih =>
    intro acc
    obtain ⟨hp, hin⟩ := ih (acc ++ sep ++ x)
    have hacc : acc.data <+: (acc ++ sep ++ x).data := by
      simp only [String.data_append, List.append_assoc]
      exact List.prefix_append _ _
    have hx : x.data <:+: (acc ++ sep ++ x).data := by
      simp only [String.data_append]
      exact (List.suffix_append _ _).isInfix
    refine ⟨hacc.trans hp, ?_⟩
    intro s hs
    rcases List.mem_cons.1 hs with rfl | hs
    · exact hx.trans hp.isInfix
    · exact hin s hs

/-- Every element of the list occurs in the joined string. -/
theorem join_contains (elems : List String) (sep : String) :
    ∀ s ∈ elems, s.data <:+: (strings.Join elems sep).data := by
  intro s hs
  match elems, hs with
  | [e], hs =>
    simp only [List.mem_singleton] at hs
    subst hs
    exact List.infix_refl _
  | e :: x :: xs, hs =>
    obtain ⟨hp, hin⟩ := foldl_join_data sep (x :: xs) e
    rcases List.mem_cons.1 hs with rfl | hs
    · exact hp.isInfix
    · exact hin s hs

/-! ## The operations in terms of the outcome of `Call` -/

theorem Call_eq (gateway : IrisGateway) (method path : String) (body : Option String)
    (k : DestKind) (v : k.type) (w : World) :
    gateway.Call method path body k v w =
      (gateway.Client.transport w.sent
          ⟨method, gateway.Client.IrisURL ++
            (if strings.HasPrefix path "/" = true then path else "/" ++ path), body⟩ k v,
        { w with sent := w.sent ++
          [⟨method, gateway.Client.IrisURL ++
            (if strings.HasPrefix path "/" = true then path else "/" ++ path), body⟩] }) := by
  unfold IrisGateway.Call Client.Call
  by_cases h : strings.HasPrefix path "/" = true <;> simp [h]

theorem Call_log (gateway : IrisGateway) (method path : String) (body : Option String)
    (k : DestKind) (v : k.type) (w : World) :
    (gateway.Call method path body k v w).2.log = w.log := by
  rw [Call_eq]

theorem GetListBeneficiaryBank_of_call (gateway : IrisGateway) (w w1 : World)
    (resp : IrisBeneficiaryBanksResponse) (err : Option GoError) :
    gateway.Call "GET" "api/v1/beneficiary_banks" none .banks {} w = ((resp, err), w1) →
    gateway.GetListBeneficiaryBank w =
      match err with
      | some e =>
        ((resp, some e), Logger.Println [.str "Error getting beneficiary banks: ", .err e] w1)
      | none => ((resp, none), w1) := by
  unfold IrisGateway.GetListBeneficiaryBank
  intro h
  dsimp only
  rw [h]
  cases err <;> rfl

theorem CreateBeneficiaries_of_call (gateway : IrisGateway) (json : Marshal)
    (req : Option IrisBeneficiaries) (w w1 : World)
    (resp : IrisBeneficiariesResponse) (err : Option GoError) :
    gateway.Call "POST" "api/v1/beneficiaries" (some (json.beneficiaries req))
          .beneficiariesResp {} w = ((resp, err), w1) →
    gateway.CreateBeneficiaries json req w =
      match err with
      | some e =>
        ((false, some e), Logger.Println [.str "Error creating beneficiaries: ", .err e] w1)
      | none =>
        if resp.Status = "created" then ((true, none), w1)
        else ((false, some (errors.New (strings.Join resp.Errors ","))),
          Logger.Println [.str "Error creating beneficiaries: ", .strs resp.Errors] w1) := by
  unfold IrisGateway.CreateBeneficiaries
  intro h
  dsimp only
  rw [h]
  cases err
  · by_cases hs : resp.Status = "created" <;> simp [hs]
  · rfl

theorem UpdateBeneficiaries_of_call (gateway : IrisGateway) (json : Marshal)
    (aliasName : String) (req : Option IrisBeneficiaries) (w w1 : World)
    (resp : IrisBeneficiariesResponse) (err : Option GoError) :
    gateway.Call "PATCH" (fmt.Sprintf_beneficiaries aliasName)
          (some (json.beneficiaries req)) .beneficiariesResp {} w = ((resp, err), w1) →
    gateway.UpdateBeneficiaries json aliasName req w =
      match err with
      | some e =>
        ((false, some e), Logger.Println [.str "Error updating beneficiaries: ", .err e] w1)
      | none =>
        if resp.Status = "updated" then ((true, none), w1)
        else ((false, some (errors.New (strings.Join resp.Errors ","))),
          Logger.Println [.str "Error updating beneficiaries: ", .strs resp.Errors] w1) := by
  unfold IrisGateway.UpdateBeneficiaries
  intro h
  dsimp only
  rw [h]
  cases err
  · by_cases hs : resp.Status = "updated" <;> simp [hs]
  · rfl

theorem GetListBeneficiaries_of_call (gateway : IrisGateway) (w w1 : World)
    (resp : List IrisBeneficiaries) (err : Option GoError) :
    gateway.Call "GET" "api/v1/beneficiaries" none .beneficiaryList [] w
          = ((resp, err), w1) →
    gateway.GetListBeneficiaries w =
      match err with
      | some e =>
        ((resp, some e), Logger.Println [.str "Error get list beneficiaries: ", .err e] w1)
      | none => ((resp, none), w1) := by
  unfold IrisGateway.GetListBeneficiaries
  intro h
  dsimp only
  rw [h]
  cases err <;> rfl

theorem CreatePayouts_of_call (gateway : IrisGateway) (json : Marshal)
    (req : IrisCreatePayoutReq) (w w1 : World)
    (resp : IrisCreatePayoutResponse) (err : Option GoError) :
    gateway.Call "POST" "api/v1/payouts" (some (json.createPayout req))
          .createPayout {} w = ((resp, err), w1) →
    gateway.CreatePayouts json req w =
      match err with
      | some e => ((resp, some e), Logger.Println [.str "Error creating payouts: ", .err e] w1)
      | none =>
        if resp.ErrorMessage = "" then ((resp, none), w1)
        else ((resp, some (errors.New resp.ErrorMessage)), w1) := by
  unfold IrisGateway.CreatePayouts
  intro h
  dsimp only
  rw [h]
  cases err
  · by_cases hs : resp.ErrorMessage = "" <;> simp [hs]
  · rfl

theorem ApprovePayouts_of_call (gateway : IrisGateway) (json : Marshal)
    (req : IrisApprovePayoutReq) (w w1 : World)
    (resp : IrisApprovePayoutResponse) (err : Option GoError) :
    gateway.Call "POST" "api/v1/payouts/approve" (some (json.approvePayout req))
          .approvePayout {} w = ((resp, err), w1) →
    gateway.ApprovePayouts json req w =
      match err with
      | some e => ((resp, some e), Logger.Println [.str "Error approving payouts: ", .err e] w1)
      | none =>
        if resp.Errors = [] then
          if resp.Status = "ok" then ((resp, none), w1)
          else ((resp, some (errors.New "Error approving payouts, status from API not OK")), w1)
        else ((resp, some (errors.New (strings.Join resp.Errors ", "))), w1) := by
  unfold IrisGateway.ApprovePayouts
  intro h
  dsimp only
  rw [h]
  cases err
  · by_cases he : resp.Errors = []
    · by_cases hs : resp.Status = "ok" <;> simp [he, hs]
    · have : 0 < resp.Errors.length := List.length_pos.2 he
      simp [he, this]
  · rfl

theorem hasPrefix_two_slash_iff (s : String) :
    strings.HasPrefix s "//" = true ↔ s.data.head? = some '/' ∧ s.data[1]? = some '/' := by
  obtain ⟨l⟩ := s
  match l with
  | [] => simp [strings.HasPrefix, String.length]
  | [c] => simp [strings.HasPrefix, String.length]
  | c :: d :: t => simp [strings.HasPrefix, String.length]

theorem hasPrefix_sprintf_beneficiaries (a : String) :
    strings.HasPrefix (fmt.Sprintf_beneficiaries a) "/" = false := by
  rw [Bool.eq_false_iff, Ne, hasPrefix_slash_iff, fmt.Sprintf_beneficiaries,
    String.data_append,
    show ("api/v1/beneficiaries/" : String).data = 'a' :: "pi/v1/beneficiaries/".data from rfl]
  simp

/-- `Call` on a path without leading separator. -/
theorem Call_of_no_separator (gateway : IrisGateway) (method p : String)
    (body : Option String) (k : DestKind) (v : k.type) (w : World)
    (h : strings.HasPrefix p "/" = false) :
    gateway.Call method p body k v w =
      (gateway.Client.transport w.sent
          ⟨method, gateway.Client.IrisURL ++ ("/" ++ p), body⟩ k v,
        { w with sent := w.sent ++ [⟨method, gateway.Client.IrisURL ++ ("/" ++ p), body⟩] }) := by
  rw [Call_eq]
  simp [h]

/-- The requests recorded by `Call` on a path without leading separator. -/
theorem Call_sent (gateway : IrisGateway) (method p : String)
    (body : Option String) (k : DestKind) (v : k.type) (w : World)
    (h : strings.HasPrefix p "/" = false) :
    (gateway.Call method p body k v w).2.sent =
      w.sent ++ [⟨method, gateway.Client.IrisURL ++ ("/" ++ p), body⟩] := by
  rw [Call_of_no_separator gateway method p body k v w h]

/-! ## Domain checks after a successful round trip -/

/-- C1: `CreateBeneficiaries`, when the transport call succeeds with decoded
response `resp`: if `resp.Status` is exactly "created" the result is `(true, nil)`;
for every other status the result is `(false, e)` where `e` is the error whose
message is `resp.Errors` joined with ",", and every string of `resp.Errors`
occurs in that message. -/
theorem CreateBeneficiaries_status (gateway : IrisGateway) (json : Marshal)
    (req : Option IrisBeneficiaries) (w : World) (resp : IrisBeneficiariesResponse)
    (h : (gateway.Call "POST" "api/v1/beneficiaries" (some (json.beneficiaries req))
            .beneficiariesResp {} w).1 = (resp, none)) :
    (resp.Status = "created" → (gateway.CreateBeneficiaries json req w).1 = (true, none)) ∧
    (resp.Status ≠ "created" →
      (gateway.CreateBeneficiaries json req w).1 =
          (false, some (errors.New (strings.Join resp.Errors ","))) ∧
        ∀ s ∈ resp.Errors, s.data <:+: (errors.New (strings.Join resp.Errors ",")).msg.data) := by
  rw [CreateBeneficiaries_of_call gateway json req w _ resp none (Prod.ext h rfl)]
  refine ⟨fun hs => by simp [hs], fun hs => ⟨by simp [hs], ?_⟩⟩
  exact join_contains resp.Errors ","

/-- The example of the specification: status "queued" with errors
["duplicate alias"] gives `(false, error "duplicate alias")`, and status "created"
gives `(true, nil)`. -/
theorem CreateBeneficiaries_status_witness :
    (IrisGateway.CreateBeneficiaries
        (sampleGateway { beneficiariesResp := ⟨"queued", ["duplicate alias"]⟩ })
        sampleMarshal (some { AliasName := "budi" }) {}).1
      = (false, some ⟨"duplicate alias"⟩) ∧
    (IrisGateway.CreateBeneficiaries
        (sampleGateway { beneficiariesResp := ⟨"created", []⟩ })
        sampleMarshal (some { AliasName := "budi" }) {}).1
      = (true, none) :=
  ⟨((CreateBeneficiaries_status
        (sampleGateway { beneficiariesResp := ⟨"queued", ["duplicate alias"]⟩ })
        sampleMarshal (some { AliasName := "budi" }) {} ⟨"queued", ["duplicate alias"]⟩
        rfl).2 (by decide)).1,
   (CreateBeneficiaries_status
        (sampleGateway { beneficiariesResp := ⟨"created", []⟩ })
        sampleMarshal (some { AliasName := "budi" }) {} ⟨"created", []⟩ rfl).1 rfl⟩

/-- C2: `ApprovePayouts`, when the transport call succeeds with a decoded response
whose `Errors` list is not empty: the result is the response with the error whose
message is `Errors` joined with ", ", whatever `Status` is (also when it is "ok"). -/
theorem ApprovePayouts_errors_first (gateway : IrisGateway) (json : Marshal)
    (req : IrisApprovePayoutReq) (w : World) (resp : IrisApprovePayoutResponse)
    (h : (gateway.Call "POST" "api/v1/payouts/approve" (some (json.approvePayout req))
            .approvePayout {} w).1 = (resp, none))
    (hne : resp.Errors ≠ []) :
    (gateway.ApprovePayouts json req w).1 =
      (resp, some (errors.New (strings.Join resp.Errors ", "))) := by
  rw [ApprovePayouts_of_call gateway json req w _ resp none (Prod.ext h rfl)]
  simp [hne]

/-- With errors ["payout not found", "otp expired"] and status "ok" the error is
"payout not found, otp expired". -/
theorem ApprovePayouts_errors_first_witness :
    (IrisGateway.ApprovePayouts
        (sampleGateway { approvePayout := ⟨"ok", ["payout not found", "otp expired"]⟩ })
        sampleMarshal { ReferenceNo := ["r1"] } {}).1
      = (⟨"ok", ["payout not found", "otp expired"]⟩,
          some ⟨"payout not found, otp expired"⟩) :=
  ApprovePayouts_errors_first
    (sampleGateway { approvePayout := ⟨"ok", ["payout not found", "otp expired"]⟩ })
    sampleMarshal { ReferenceNo := ["r1"] } {} ⟨"ok", ["payout not found", "otp expired"]⟩
    rfl (by decide)

/-- C3: `ApprovePayouts`, when the transport call succeeds with decoded response
`resp`: the returned error is nil if and only if `resp.Errors` is empty and
`resp.Status` is exactly "ok", and then the result is `(resp, nil)`; when
`resp.Errors` is empty and the status is anything else, the error is the fixed
literal "Error approving payouts, status from API not OK". -/
theorem ApprovePayouts_nil_iff (gateway : IrisGateway) (json : Marshal)
    (req : IrisApprovePayoutReq) (w : World) (resp : IrisApprovePayoutResponse)
    (h : (gateway.Call "POST" "api/v1/payouts/approve" (some (json.approvePayout req))
            .approvePayout {} w).1 = (resp, none)) :
    ((gateway.ApprovePayouts json req w).1.2 = none ↔
        resp.Errors = [] ∧ resp.Status = "ok") ∧
    (resp.Errors = [] ∧ resp.Status = "ok" →
        (gateway.ApprovePayouts json req w).1 = (resp, none)) ∧
    (resp.Errors = [] → resp.Status ≠ "ok" →
        (gateway.ApprovePayouts json req w).1.2 =
          some (errors.New "Error approving payouts, status from API not OK")) := by
  rw [ApprovePayouts_of_call gateway json req w _ resp none (Prod.ext h rfl)]
  by_cases he : resp.Errors = []
  · by_cases hs : resp.Status = "ok" <;> simp [he, hs]
  · simp [he]

/-- Status "ok" without errors is returned with a nil error; status "pending"
without errors gives the fixed literal. -/
theorem ApprovePayouts_nil_iff_witness :
    (IrisGateway.ApprovePayouts (sampleGateway { approvePayout := ⟨"ok", []⟩ })
        sampleMarshal { ReferenceNo := ["r1"] } {}).1 = (⟨"ok", []⟩, none) ∧
    (IrisGateway.ApprovePayouts (sampleGateway { approvePayout := ⟨"pending", []⟩ })
        sampleMarshal { ReferenceNo := ["r1"] } {}).1.2
      = some ⟨"Error approving payouts, status from API not OK"⟩ :=
  ⟨(ApprovePayouts_nil_iff (sampleGateway { approvePayout := ⟨"ok", []⟩ })
        sampleMarshal { ReferenceNo := ["r1"] } {} ⟨"ok", []⟩ rfl).2.1 ⟨rfl, rfl⟩,
   (ApprovePayouts_nil_iff (sampleGateway { approvePayout := ⟨"pending", []⟩ })
        sampleMarshal { ReferenceNo := ["r1"] } {} ⟨"pending", []⟩ rfl).2.2 rfl (by decide)⟩

/-- C4: `CreatePayouts`, when the transport call succeeds with decoded response
`resp`: if `resp.ErrorMessage` is not empty the result is `resp` with the error
whose message is `resp.ErrorMessage`, whatever the other fields hold; if it is
empty the result is `(resp, nil)`. -/
theorem CreatePayouts_error_message (gateway : IrisGateway) (json : Marshal)
    (req : IrisCreatePayoutReq) (w : World) (resp : IrisCreatePayoutResponse)
    (h : (gateway.Call "POST" "api/v1/payouts" (some (json.createPayout req))
            .createPayout {} w).1 = (resp, none)) :
    (resp.ErrorMessage ≠ "" →
        (gateway.CreatePayouts json req w).1 = (resp, some (errors.New resp.ErrorMessage)) ∧
        (errors.New resp.ErrorMessage).msg = resp.ErrorMessage) ∧
    (resp.ErrorMessage = "" → (gateway.CreatePayouts json req w).1 = (resp, none)) := by
  rw [CreatePayouts_of_call gateway json req w _ resp none (Prod.ext h rfl)]
  exact ⟨fun hs => ⟨by simp [hs], rfl⟩, fun hs => by simp [hs]⟩

/-- A response with populated payouts and error message "insufficient balance"
gives that error; the same payouts without error message give a nil error. -/
theorem CreatePayouts_error_message_witness :
    (IrisGateway.CreatePayouts
        (sampleGateway { createPayout := ⟨[⟨"queued", "ref-1"⟩], "insufficient balance"⟩ })
        sampleMarshal { Payouts := [⟨"budi", "1000", "salary"⟩] } {}).1
      = (⟨[⟨"queued", "ref-1"⟩], "insufficient balance"⟩, some ⟨"insufficient balance"⟩) ∧
    (IrisGateway.CreatePayouts
        (sampleGateway { createPayout := ⟨[⟨"queued", "ref-1"⟩], ""⟩ })
        sampleMarshal { Payouts := [⟨"budi", "1000", "salary"⟩] } {}).1
      = (⟨[⟨"queued", "ref-1"⟩], ""⟩, none) :=
  ⟨((CreatePayouts_error_message
        (sampleGateway { createPayout := ⟨[⟨"queued", "ref-1"⟩], "insufficient balance"⟩ })
        sampleMarshal { Payouts := [⟨"budi", "1000", "salary"⟩] } {}
        ⟨[⟨"queued", "ref-1"⟩], "insufficient balance"⟩ rfl).1 (by decide)).1,
   (CreatePayouts_error_message
        (sampleGateway { createPayout := ⟨[⟨"queued", "ref-1"⟩], ""⟩ })
        sampleMarshal { Payouts := [⟨"budi", "1000", "salary"⟩] } {}
        ⟨[⟨"queued", "ref-1"⟩], ""⟩ rfl).2 rfl⟩

/-- C5: `UpdateBeneficiaries`, for every alias name, when the transport call
succeeds with decoded response `resp`: if `resp.Status` is exactly "updated" the
result is `(true, nil)`; for every other status (also "created" and the empty
string) the result is `(false, e)` where `e` is the error whose message is
`resp.Errors` joined with ",". -/
theorem UpdateBeneficiaries_status (gateway : IrisGateway) (json : Marshal)
    (aliasName : String) (req : Option IrisBeneficiaries) (w : World)
    (resp : IrisBeneficiariesResponse)
    (h : (gateway.Call "PATCH" (fmt.Sprintf_beneficiaries aliasName)
            (some (json.beneficiaries req)) .beneficiariesResp {} w).1 = (resp, none)) :
    (resp.Status = "updated" →
        (gateway.UpdateBeneficiaries json aliasName req w).1 = (true, none)) ∧
    (resp.Status ≠ "updated" →
      (gateway.UpdateBeneficiaries json aliasName req w).1 =
        (false, some (errors.New (strings.Join resp.Errors ",")))) := by
  rw [UpdateBeneficiaries_of_call gateway json aliasName req w _ resp none (Prod.ext h rfl)]
  exact ⟨fun hs => by simp [hs], fun hs => by simp [hs]⟩

/-- Status "updated" gives `(true, nil)`; status "created" with errors
["unknown bank", "bad account"] gives `(false, error "unknown bank,bad account")`. -/
theorem UpdateBeneficiaries_status_witness :
    (IrisGateway.UpdateBeneficiaries
        (sampleGateway { beneficiariesResp := ⟨"updated", []⟩ })
        sampleMarshal "budi" (some { AliasName := "budi" }) {}).1 = (true, none) ∧
    (IrisGateway.UpdateBeneficiaries
        (sampleGateway { beneficiariesResp := ⟨"created", ["unknown bank", "bad account"]⟩ })
        sampleMarshal "budi" (some { AliasName := "budi" }) {}).1
      = (false, some ⟨"unknown bank,bad account"⟩) :=
  ⟨(UpdateBeneficiaries_status
        (sampleGateway { beneficiariesResp := ⟨"updated", []⟩ })
        sampleMarshal "budi" (some { AliasName := "budi" }) {} ⟨"updated", []⟩ rfl).1 rfl,
   (UpdateBeneficiaries_status
        (sampleGateway { beneficiariesResp := ⟨"created", ["unknown bank", "bad account"]⟩ })
        sampleMarshal "budi" (some { AliasName := "budi" }) {}
        ⟨"created", ["unknown bank", "bad account"]⟩ rfl).2 (by decide)⟩

/-! ## Transport failures -/

/-- C6 (as stated, refuted): a transport that decodes part of the body into the
destination and then fails makes `CreatePayouts` return a non-nil error together
with a response that is not the zero value. -/
theorem CreatePayouts_transport_error_not_zero :
    ((sampleGateway { createPayout := ⟨[⟨"queued", "ref-1"⟩], "partial"⟩,
                      err := some ⟨"unexpected end of JSON input"⟩ }).Call
        "POST" "api/v1/payouts" (some (sampleMarshal.createPayout {})) .createPayout {} {}).1.2
      = some ⟨"unexpected end of JSON input"⟩ ∧
    (IrisGateway.CreatePayouts
        (sampleGateway { createPayout := ⟨[⟨"queued", "ref-1"⟩], "partial"⟩,
                         err := some ⟨"unexpected end of JSON input"⟩ })
        sampleMarshal {} {}).1.2 = some ⟨"unexpected end of JSON input"⟩ ∧
    (IrisGateway.CreatePayouts
        (sampleGateway { createPayout := ⟨[⟨"queued", "ref-1"⟩], "partial"⟩,
                         err := some ⟨"unexpected end of JSON input"⟩ })
        sampleMarshal {} {}).1.1 ≠ {} := by
  decide

/-- C6 (amended): whenever the transport call returns an error `e`, each of the
six operations returns that same error `e` without looking at any domain field of
the response; `CreateBeneficiaries` and `UpdateBeneficiaries` return `false`, and
the other four return the destination as the transport left it, which is the zero
value when the transport did not write to it. -/
theorem transport_error_result (gateway : IrisGateway) (json : Marshal) (w : World)
    (e : GoError) :
    (∀ resp, (gateway.Call "GET" "api/v1/beneficiary_banks" none .banks {} w).1
          = (resp, some e) →
        (gateway.GetListBeneficiaryBank w).1 = (resp, some e)) ∧
    (∀ req resp, (gateway.Call "POST" "api/v1/beneficiaries" (some (json.beneficiaries req))
          .beneficiariesResp {} w).1 = (resp, some e) →
        (gateway.CreateBeneficiaries json req w).1 = (false, some e)) ∧
    (∀ aliasName req resp, (gateway.Call "PATCH" (fmt.Sprintf_beneficiaries aliasName)
          (some (json.beneficiaries req)) .beneficiariesResp {} w).1 = (resp, some e) →
        (gateway.UpdateBeneficiaries json aliasName req w).1 = (false, some e)) ∧
    (∀ resp, (gateway.Call "GET" "api/v1/beneficiaries" none .beneficiaryList [] w).1
          = (resp, some e) →
        (gateway.GetListBeneficiaries w).1 = (resp, some e)) ∧
    (∀ req resp, (gateway.Call "POST" "api/v1/payouts" (some (json.createPayout req))
          .createPayout {} w).1 = (resp, some e) →
        (gateway.CreatePayouts json req w).1 = (resp, some e)) ∧
    (∀ req resp, (gateway.Call "POST" "api/v1/payouts/approve"
          (some (json.approvePayout req)) .approvePayout {} w).1 = (resp, some e) →
        (gateway.ApprovePayouts json req w).1 = (resp, some e)) := by
  refine ⟨?_, ?_, ?_, ?_, ?_, ?_⟩
  · intro resp h
    rw [GetListBeneficiaryBank_of_call gateway w _ resp (some e) (Prod.ext h rfl)]
  · intro req resp h
    rw [CreateBeneficiaries_of_call gateway json req w _ resp (some e) (Prod.ext h rfl)]
  · intro aliasName req resp h
    rw [UpdateBeneficiaries_of_call gateway json aliasName req w _ resp (some e)
      (Prod.ext h rfl)]
  · intro resp h
    rw [GetListBeneficiaries_of_call gateway w _ resp (some e) (Prod.ext h rfl)]
  · intro req resp h
    rw [CreatePayouts_of_call gateway json req w _ resp (some e) (Prod.ext h rfl)]
  · intro req resp h
    rw [ApprovePayouts_of_call gateway json req w _ resp (some e) (Prod.ext h rfl)]

/-- A transport that fails with "connection refused" after leaving success-looking
values in the destinations: each operation returns that error, the two boolean
operations return `false`, the others return what was left in the destination. -/
theorem transport_error_result_witness :
    (IrisGateway.GetListBeneficiaryBank
        (sampleGateway { banks := ⟨[⟨"bca", "Bank Central Asia"⟩]⟩,
                         beneficiariesResp := ⟨"created", []⟩,
                         beneficiaryList := [{ AliasName := "budi" }],
                         createPayout := ⟨[⟨"queued", "ref-1"⟩], ""⟩,
                         approvePayout := ⟨"ok", []⟩,
                         err := some ⟨"connection refused"⟩ }) {}).1
      = (⟨[⟨"bca", "Bank Central Asia"⟩]⟩, some ⟨"connection refused"⟩) ∧
    (IrisGateway.CreateBeneficiaries
        (sampleGateway { banks := ⟨[⟨"bca", "Bank Central Asia"⟩]⟩,
                         beneficiariesResp := ⟨"created", []⟩,
                         beneficiaryList := [{ AliasName := "budi" }],
                         createPayout := ⟨[⟨"queued", "ref-1"⟩], ""⟩,
                         approvePayout := ⟨"ok", []⟩,
                         err := some ⟨"connection refused"⟩ }) sampleMarshal none {}).1
      = (false, some ⟨"connection refused"⟩) ∧
    (IrisGateway.UpdateBeneficiaries
        (sampleGateway { banks := ⟨[⟨"bca", "Bank Central Asia"⟩]⟩,
                         beneficiariesResp := ⟨"created", []⟩,
                         beneficiaryList := [{ AliasName := "budi" }],
                         createPayout := ⟨[⟨"queued", "ref-1"⟩], ""⟩,
                         approvePayout := ⟨"ok", []⟩,
                         err := some ⟨"connection refused"⟩ }) sampleMarshal "budi" none {}).1
      = (false, some ⟨"connection refused"⟩) ∧
    (IrisGateway.GetListBeneficiaries
        (sampleGateway { banks := ⟨[⟨"bca", "Bank Central Asia"⟩]⟩,
                         beneficiariesResp := ⟨"created", []⟩,
                         beneficiaryList := [{ AliasName := "budi" }],
                         createPayout := ⟨[⟨"queued", "ref-1"⟩], ""⟩,
                         approvePayout := ⟨"ok", []⟩,
                         err := some ⟨"connection refused"⟩ }) {}).1
      = ([{ AliasName := "budi" }], some ⟨"connection refused"⟩) ∧
    (IrisGateway.CreatePayouts
        (sampleGateway { banks := ⟨[⟨"bca", "Bank Central Asia"⟩]⟩,
                         beneficiariesResp := ⟨"created", []⟩,
                         beneficiaryList := [{ AliasName := "budi" }],
                         createPayout := ⟨[⟨"queued", "ref-1"⟩], ""⟩,
                         approvePayout := ⟨"ok", []⟩,
                         err := some ⟨"connection refused"⟩ }) sampleMarshal {} {}).1
      = (⟨[⟨"queued", "ref-1"⟩], ""⟩, some ⟨"connection refused"⟩) ∧
    (IrisGateway.ApprovePayouts
        (sampleGateway { banks := ⟨[⟨"bca", "Bank Central Asia"⟩]⟩,
                         beneficiariesResp := ⟨"created", []⟩,
                         beneficiaryList := [{ AliasName := "budi" }],
                         createPayout := ⟨[⟨"queued", "ref-1"⟩], ""⟩,
                         approvePayout := ⟨"ok", []⟩,
                         err := some ⟨"connection refused"⟩ }) sampleMarshal {} {}).1
      = (⟨"ok", []⟩, some ⟨"connection refused"⟩) :=
  have t := transport_error_result
    (sampleGateway { banks := ⟨[⟨"bca", "Bank Central Asia"⟩]⟩,
                     beneficiariesResp := ⟨"created", []⟩,
                     beneficiaryList := [{ AliasName := "budi" }],
                     createPayout := ⟨[⟨"queued", "ref-1"⟩], ""⟩,
                     approvePayout := ⟨"ok", []⟩,
                     err := some ⟨"connection refused"⟩ }) sampleMarshal {}
    ⟨"connection refused"⟩
  ⟨t.1 _ rfl, t.2.1 none _ rfl, t.2.2.1 "budi" none _ rfl, t.2.2.2.1 _ rfl,
    t.2.2.2.2.1 {} _ rfl, t.2.2.2.2.2 {} _ rfl⟩

/-! ## Path normalisation in `Call` -/

/-- C7: for every path `p` that does not start with "/", `Call` with `p` and
`Call` with `"/" ++ p` do the same thing, and the URL handed to the transport is
the base IRIS URL followed by "/" and `p`. -/
theorem Call_separator_added_once (gateway : IrisGateway) (method p : String)
    (body : Option String) (k : DestKind) (v : k.type) (w : World)
    (h : strings.HasPrefix p "/" = false) :
    gateway.Call method p body k v w = gateway.Call method ("/" ++ p) body k v w ∧
    gateway.Call method p body k v w =
      (gateway.Client.transport w.sent
          ⟨method, gateway.Client.IrisURL ++ "/" ++ p, body⟩ k v,
        { w with sent := w.sent ++ [⟨method, gateway.Client.IrisURL ++ "/" ++ p, body⟩] }) := by
  constructor
  · rw [Call_eq, Call_eq]
    simp [h, hasPrefix_slash_append]
  · rw [Call_of_no_separator gateway method p body k v w h, String.append_assoc]

/-- The path "api/v1/payouts" and the path "/api/v1/payouts" give the same call. -/
theorem Call_separator_added_once_witness :
    (sampleGateway {}).Call "POST" "api/v1/payouts" none .createPayout {} {} =
      (sampleGateway {}).Call "POST" ("/" ++ "api/v1/payouts") none .createPayout {} {} ∧
    ((sampleGateway {}).Call "POST" "api/v1/payouts" none .createPayout {} {}).2.sent =
      [⟨"POST", "https://iris.example/api/v1/payouts", none⟩] :=
  ⟨(Call_separator_added_once (sampleGateway {}) "POST" "api/v1/payouts" none
      .createPayout {} {} (by decide)).1,
   congrArg (fun r => r.2.sent)
    (Call_separator_added_once (sampleGateway {}) "POST" "api/v1/payouts" none
      .createPayout {} {} (by decide)).2⟩

/-- C8 (as stated, refuted): for the path "//x" the URL handed to the transport
is not the base URL followed by a path that begins with exactly one "/". -/
theorem Call_keeps_double_separator :
    ¬ ∃ q : String,
      ((sampleGateway {}).Call "GET" "//x" none .banks {} {}).2.sent =
          [⟨"GET", (sampleGateway {}).Client.IrisURL ++ q, none⟩] ∧
        q.data.head? = some '/' ∧ q.data[1]? ≠ some '/' := by
  rintro ⟨q, h1, -, h3⟩
  rw [Call_eq] at h1
  have h2 : (sampleGateway {}).Client.IrisURL ++ "//x" = (sampleGateway {}).Client.IrisURL ++ q := by
    simpa [show strings.HasPrefix "//x" "/" = true from by decide] using h1
  have hq := string_append_cancel_left _ _ _ h2
  subst hq
  exact h3 (by decide)

/-- C8 (amended): for every input path, `Call` hands the transport the method,
body and destination unchanged and the URL made of the base IRIS URL followed by
a path `q`, where `q` is the input path when that starts with "/" and "/" followed
by the input path otherwise.  `q` always begins with "/"; its second character is
"/" exactly when the input path begins with "//". -/
theorem Call_path_normalised (gateway : IrisGateway) (method path : String)
    (body : Option String) (k : DestKind) (v : k.type) (w : World) :
    ∃ q : String,
      q = (if strings.HasPrefix path "/" = true then path else "/" ++ path) ∧
      gateway.Call method path body k v w =
        (gateway.Client.transport w.sent ⟨method, gateway.Client.IrisURL ++ q, body⟩ k v,
          { w with sent := w.sent ++ [⟨method, gateway.Client.IrisURL ++ q, body⟩] }) ∧
      q.data.head? = some '/' ∧
      (q.data[1]? = some '/' ↔ strings.HasPrefix path "//" = true) := by
  refine ⟨_, rfl, Call_eq gateway method path body k v w, ?_, ?_⟩
  · by_cases h : strings.HasPrefix path "/" = true
    · simpa [h] using (hasPrefix_slash_iff path).1 h
    · simp [h]
  · by_cases h : strings.HasPrefix path "/" = true
    · have hh := (hasPrefix_slash_iff path).1 h
      simp [h, hasPrefix_two_slash_iff, hh]
    · have hh : ¬ path.data.head? = some '/' := fun hc => h ((hasPrefix_slash_iff path).2 hc)
      have h2 : ¬ strings.HasPrefix path "//" = true :=
        fun hc => hh ((hasPrefix_two_slash_iff path).1 hc).1
      rw [if_neg h]
      refine ⟨fun hc => absurd ?_ hh, fun hc => absurd hc h2⟩
      rw [String.data_append, show ("/" : String).data = ['/'] from rfl] at hc
      cases hp : path.data with
      | nil => rw [hp] at hc; simp at hc
      | cons c t => rw [hp] at hc; simpa using hc

/-! ## Requests handed to the transport -/

/-- C10: each of the six operations hands exactly one request to the transport,
whatever the outcome of the round trip, with the method and URL of the interface
table; for `UpdateBeneficiaries` the alias is appended to
"/api/v1/beneficiaries/" as it is. -/
theorem transport_invoked_once (gateway : IrisGateway) (json : Marshal) (w : World) :
    (gateway.GetListBeneficiaryBank w).2.sent =
      w.sent ++ [⟨"GET", gateway.Client.IrisURL ++ "/api/v1/beneficiary_banks", none⟩] ∧
    (∀ req, (gateway.CreateBeneficiaries json req w).2.sent =
      w.sent ++ [⟨"POST", gateway.Client.IrisURL ++ "/api/v1/beneficiaries",
        some (json.beneficiaries req)⟩]) ∧
    (∀ a req, (gateway.UpdateBeneficiaries json a req w).2.sent =
      w.sent ++ [⟨"PATCH", gateway.Client.IrisURL ++ "/api/v1/beneficiaries/" ++ a,
        some (json.beneficiaries req)⟩]) ∧
    (gateway.GetListBeneficiaries w).2.sent =
      w.sent ++ [⟨"GET", gateway.Client.IrisURL ++ "/api/v1/beneficiaries", none⟩] ∧
    (∀ req, (gateway.CreatePayouts json req w).2.sent =
      w.sent ++ [⟨"POST", gateway.Client.IrisURL ++ "/api/v1/payouts",
        some (json.createPayout req)⟩]) ∧
    (∀ req, (gateway.ApprovePayouts json req w).2.sent =
      w.sent ++ [⟨"POST", gateway.Client.IrisURL ++ "/api/v1/payouts/approve",
        some (json.approvePayout req)⟩]) := by
  refine ⟨?_, ?_, ?_, ?_, ?_, ?_⟩
  · have hs := Call_sent gateway "GET" "api/v1/beneficiary_banks" none .banks {} w (by decide)
    rcases hc : gateway.Call "GET" "api/v1/beneficiary_banks" none .banks {} w
      with ⟨⟨resp, err⟩, w1⟩
    rw [hc] at hs
    rw [GetListBeneficiaryBank_of_call gateway w w1 resp err hc]
    cases err <;> exact hs
  · intro req
    have hs := Call_sent gateway "POST" "api/v1/beneficiaries" (some (json.beneficiaries req))
      .beneficiariesResp {} w (by decide)
    rcases hc : gateway.Call "POST" "api/v1/beneficiaries" (some (json.beneficiaries req))
      .beneficiariesResp {} w with ⟨⟨resp, err⟩, w1⟩
    rw [hc] at hs
    rw [CreateBeneficiaries_of_call gateway json req w w1 resp err hc]
    cases err
    · by_cases hst : resp.Status = "created"
      · rw [if_pos hst]; exact hs
      · rw [if_neg hst]; exact hs
    · exact hs
  · intro a req
    have hs := Call_sent gateway "PATCH" (fmt.Sprintf_beneficiaries a)
      (some (json.beneficiaries req)) .beneficiariesResp {} w
      (hasPrefix_sprintf_beneficiaries a)
    rw [show gateway.Client.IrisURL ++ ("/" ++ fmt.Sprintf_beneficiaries a)
        = gateway.Client.IrisURL ++ "/api/v1/beneficiaries/" ++ a from by
      rw [fmt.Sprintf_beneficiaries, String.append_assoc gateway.Client.IrisURL,
        ← String.append_assoc "/"]
      rfl] at hs
    rcases hc : gateway.Call "PATCH" (fmt.Sprintf_beneficiaries a)
      (some (json.beneficiaries req)) .beneficiariesResp {} w with ⟨⟨resp, err⟩, w1⟩
    rw [hc] at hs
    rw [UpdateBeneficiaries_of_call gateway json a req w w1 resp err hc]
    cases err
    · by_cases hst : resp.Status = "updated"
      · rw [if_pos hst]; exact hs
      · rw [if_neg hst]; exact hs
    · exact hs
  · have hs := Call_sent gateway "GET" "api/v1/beneficiaries" none .beneficiaryList [] w
      (by decide)
    rcases hc : gateway.Call "GET" "api/v1/beneficiaries" none .beneficiaryList [] w
      with ⟨⟨resp, err⟩, w1⟩
    rw [hc] at hs
    rw [GetListBeneficiaries_of_call gateway w w1 resp err hc]
    cases err <;> exact hs
  · intro req
    have hs := Call_sent gateway "POST" "api/v1/payouts" (some (json.createPayout req))
      .createPayout {} w (by decide)
    rcases hc : gateway.Call "POST" "api/v1/payouts" (some (json.createPayout req))
      .createPayout {} w with ⟨⟨resp, err⟩, w1⟩
    rw [hc] at hs
    rw [CreatePayouts_of_call gateway json req w w1 resp err hc]
    cases err
    · by_cases hst : resp.ErrorMessage = ""
      · rw [if_pos hst]; exact hs
      · rw [if_neg hst]; exact hs
    · exact hs
  · intro req
    have hs := Call_sent gateway "POST" "api/v1/payouts/approve"
      (some (json.approvePayout req)) .approvePayout {} w (by decide)
    rcases hc : gateway.Call "POST" "api/v1/payouts/approve"
      (some (json.approvePayout req)) .approvePayout {} w with ⟨⟨resp, err⟩, w1⟩
    rw [hc] at hs
    rw [ApprovePayouts_of_call gateway json req w w1 resp err hc]
    cases err
    · by_cases he : resp.Errors = []
      · rw [if_pos he]
        by_cases hst : resp.Status = "ok"
        · rw [if_pos hst]; exact hs
        · rw [if_neg hst]; exact hs
      · rw [if_neg he]; exact hs
    · exact hs

/-! ## The diagnostic log -/

/-- On every path that returns a nil error, none of the six operations writes to
the log. -/
theorem log_unchanged_of_nil_error (gateway : IrisGateway) (json : Marshal) (w : World) :
    ((gateway.GetListBeneficiaryBank w).1.2 = none →
      (gateway.GetListBeneficiaryBank w).2.log = w.log) ∧
    (∀ req, (gateway.CreateBeneficiaries json req w).1.2 = none →
      (gateway.CreateBeneficiaries json req w).2.log = w.log) ∧
    (∀ a req, (gateway.UpdateBeneficiaries json a req w).1.2 = none →
      (gateway.UpdateBeneficiaries json a req w).2.log = w.log) ∧
    ((gateway.GetListBeneficiaries w).1.2 = none →
      (gateway.GetListBeneficiaries w).2.log = w.log) ∧
    (∀ req, (gateway.CreatePayouts json req w).1.2 = none →
      (gateway.CreatePayouts json req w).2.log = w.log) ∧
    (∀ req, (gateway.ApprovePayouts json req w).1.2 = none →
      (gateway.ApprovePayouts json req w).2.log = w.log) := by
  refine ⟨?_, ?_, ?_, ?_, ?_, ?_⟩
  · have hl := Call_log gateway "GET" "api/v1/beneficiary_banks" none .banks {} w
    rcases hc : gateway.Call "GET" "api/v1/beneficiary_banks" none .banks {} w
      with ⟨⟨resp, err⟩, w1⟩
    rw [hc] at hl
    rw [GetListBeneficiaryBank_of_call gateway w w1 resp err hc]
    cases err
    · exact fun _ => hl
    · intro h; simp at h
  · intro req
    have hl := Call_log gateway "POST" "api/v1/beneficiaries" (some (json.beneficiaries req))
      .beneficiariesResp {} w
    rcases hc : gateway.Call "POST" "api/v1/beneficiaries" (some (json.beneficiaries req))
      .beneficiariesResp {} w with ⟨⟨resp, err⟩, w1⟩
    rw [hc] at hl
    rw [CreateBeneficiaries_of_call gateway json req w w1 resp err hc]
    cases err
    · by_cases hst : resp.Status = "created"
      · rw [if_pos hst]; exact fun _ => hl
      · rw [if_neg hst]; intro h; simp at h
    · intro h; simp at h
  · intro a req
    have hl := Call_log gateway "PATCH" (fmt.Sprintf_beneficiaries a)
      (some (json.beneficiaries req)) .beneficiariesResp {} w
    rcases hc : gateway.Call "PATCH" (fmt.Sprintf_beneficiaries a)
      (some (json.beneficiaries req)) .beneficiariesResp {} w with ⟨⟨resp, err⟩, w1⟩
    rw [hc] at hl
    rw [UpdateBeneficiaries_of_call gateway json a req w w1 resp err hc]
    cases err
    · by_cases hst : resp.Status = "updated"
      · rw [if_pos hst]; exact fun _ => hl
      · rw [if_neg hst]; intro h; simp at h
    · intro h; simp at h
  · have hl := Call_log gateway "GET" "api/v1/beneficiaries" none .beneficiaryList [] w
    rcases hc : gateway.Call "GET" "api/v1/beneficiaries" none .beneficiaryList [] w
      with ⟨⟨resp, err⟩, w1⟩
    rw [hc] at hl
    rw [GetListBeneficiaries_of_call gateway w w1 resp err hc]
    cases err
    · exact fun _ => hl
    · intro h; simp at h
  · intro req
    have hl := Call_log gateway "POST" "api/v1/payouts" (some (json.createPayout req))
      .createPayout {} w
    rcases hc : gateway.Call "POST" "api/v1/payouts" (some (json.createPayout req))
      .createPayout {} w with ⟨⟨resp, err⟩, w1⟩
    rw [hc] at hl
    rw [CreatePayouts_of_call gateway json req w w1 resp err hc]
    cases err
    · by_cases hst : resp.ErrorMessage = ""
      · rw [if_pos hst]; exact fun _ => hl
      · rw [if_neg hst]; exact fun _ => hl
    · intro h; simp at h
  · intro req
    have hl := Call_log gateway "POST" "api/v1/payouts/approve"
      (some (json.approvePayout req)) .approvePayout {} w
    rcases hc : gateway.Call "POST" "api/v1/payouts/approve"
      (some (json.approvePayout req)) .approvePayout {} w with ⟨⟨resp, err⟩, w1⟩
    rw [hc] at hl
    rw [ApprovePayouts_of_call gateway json req w w1 resp err hc]
    cases err
    · by_cases he : resp.Errors = []
      · rw [if_pos he]
        by_cases hst : resp.Status = "ok"
        · rw [if_pos hst]; exact fun _ => hl
        · rw [if_neg hst]; exact fun _ => hl
      · rw [if_neg he]; exact fun _ => hl
    · intro h; simp at h

/-- C9 (evaluation at the failing inputs): with a transport that succeeds,
`CreatePayouts` on a response with error message "insufficient balance", and
`ApprovePayouts` on a response with errors ["payout not found"] or with status
"pending", return a non-nil error and leave the log empty, while
`CreateBeneficiaries` on a response with status "queued" writes its domain
failure to the log. -/
theorem domain_failure_not_logged :
    IrisGateway.CreatePayouts
        (sampleGateway { createPayout := ⟨[], "insufficient balance"⟩ }) sampleMarshal {} {}
      = ((⟨[], "insufficient balance"⟩, some ⟨"insufficient balance"⟩),
          { sent := [⟨"POST", "https://iris.example/api/v1/payouts", some "{}"⟩], log := [] }) ∧
    IrisGateway.ApprovePayouts
        (sampleGateway { approvePayout := ⟨"ok", ["payout not found"]⟩ }) sampleMarshal {} {}
      = ((⟨"ok", ["payout not found"]⟩, some ⟨"payout not found"⟩),
          { sent := [⟨"POST", "https://iris.example/api/v1/payouts/approve", some "{}"⟩],
            log := [] }) ∧
    IrisGateway.ApprovePayouts
        (sampleGateway { approvePayout := ⟨"pending", []⟩ }) sampleMarshal {} {}
      = ((⟨"pending", []⟩, some ⟨"Error approving payouts, status from API not OK"⟩),
          { sent := [⟨"POST", "https://iris.example/api/v1/payouts/approve", some "{}"⟩],
            log := [] }) ∧
    IrisGateway.CreateBeneficiaries
        (sampleGateway { beneficiariesResp := ⟨"queued", ["duplicate alias"]⟩ })
        sampleMarshal none {}
      = ((false, some ⟨"duplicate alias"⟩),
          { sent := [⟨"POST", "https://iris.example/api/v1/beneficiaries", some "{}"⟩],
            log := [[.str "Error creating beneficiaries: ", .strs ["duplicate alias"]]] }) := by
  decide

end Midtrans
